import Mathlib

/-!
Verification of the FogOfWar revealed-geometry store and its sharing
pipeline, shallowly embedded from `src/services/database.ts` and the
Bluetooth chunked-transport module.

Geometry values produced by the third-party boolean merge engine
(turf `circle` / `union` / `difference`) are represented symbolically as a
term algebra: the store only ever stores the results of those calls, so the
stored GeoJSON is tracked as the expression tree the code builds.
Timestamps (`Date.now()`) are passed in explicitly as a `now` argument.
Coordinates stored in the database are modelled as rationals (the SQL
equality tests used for deduplication are exact equality on the stored
values).  The real-valued haversine filter is modelled over `ℝ` further
below.
-/

/-- The symbolic geometry algebra: everything the store ever writes is either
a turf circle (`circle([longitude, latitude], radius, {steps})`), a turf
union of two geometries, or a turf difference. -/
inductive Geometry where
  | circle (longitude latitude radiusMiles : ℚ) (steps : Nat)
  | union (a b : Geometry)
  | difference (minuend subtrahend : Geometry)
deriving DecidableEq, Repr

/-- `REVEAL_RADIUS_MILES = 0.1` from `database.ts`. -/
def REVEAL_RADIUS_MILES : ℚ := 1 / 10

/-- `createRevealCircle`: `circle([longitude, latitude], REVEAL_RADIUS_MILES,
{steps: 32, units: miles})`. -/
def createRevealCircle (latitude longitude : ℚ) : Geometry :=
  Geometry.circle longitude latitude REVEAL_RADIUS_MILES 32

/-- The `source` column of `location_history` (`self` is the schema default). -/
inductive Source where
  | self
  | shared
deriving DecidableEq, Repr

/-- A row of the `location_history` table (the autoincrement `id` carries no
information used by any operation modelled here and is omitted). -/
structure HistoryRow where
  latitude : ℚ
  longitude : ℚ
  timestamp : Nat
  source : Source
deriving DecidableEq, Repr

/-- The single row of `revealed_geometry` / `shared_geometry`
(`{geojson, location_count, last_updated}`). -/
structure GeometryRow where
  geojson : Geometry
  location_count : Nat
  last_updated : Nat
deriving DecidableEq, Repr

/-- `RevealedAreaStats` from `types`. -/
structure RevealedAreaStats where
  locationCount : Nat
  lastUpdated : Nat
deriving DecidableEq, Repr

/-- `ExportableLocation` from `types`: `{lat, lon, ts}`. -/
structure ExportableLocation where
  lat : ℚ
  lon : ℚ
  ts : Nat
deriving DecidableEq, Repr

/-- `LocationExportData` from `types`: `{version, locations}`. -/
structure LocationExportData where
  version : Nat
  locations : List ExportableLocation
deriving DecidableEq, Repr

/-- The store state: the module-level `db` handle being null or not
(`initialized`), and the three tables.  `revealed` and `shared` are the
single-row geometry tables (`none` = table empty). -/
structure DB where
  initialized : Bool
  revealed : Option GeometryRow
  shared : Option GeometryRow
  history : List HistoryRow
deriving DecidableEq, Repr

/-- The error taxonomy for store operations: every guarded operation throws
`new Error('Database not initialized')` when the handle is null
(the spec's `UninitializedStoreError`). -/
inductive StoreError where
  | uninitializedStoreError
deriving DecidableEq, Repr

/-- `addVisitedLocation(latitude, longitude)`: union a fresh reveal circle
into the personal geometry (bootstrap verbatim when the row is absent),
bump `location_count`, stamp `last_updated`, and append a history row
(the `source` column takes its schema default `self`; the history timestamp
is the same `Date.now()` value).  Always returns `true`. -/
def addVisitedLocation (st : DB) (latitude longitude : ℚ) (now : Nat) :
    Except StoreError Bool × DB :=
  if st.initialized then
    let newCircle := createRevealCircle latitude longitude
    let updatedRow : GeometryRow :=
      match st.revealed with
      | some existing =>
          ⟨Geometry.union existing.geojson newCircle, existing.location_count + 1, now⟩
      | none => ⟨newCircle, 1, now⟩
    (.ok true,
      { st with
        revealed := some updatedRow,
        history := st.history ++ [⟨latitude, longitude, now, Source.self⟩] })
  else (.error .uninitializedStoreError, st)

/-- `addSharedLocation(latitude, longitude, originalTimestamp)`: same shape
as `addVisitedLocation` but targets the `shared_geometry` row, and the
history row records `originalTimestamp` with source `shared`
(`last_updated` still takes the local `Date.now()`). -/
def addSharedLocation (st : DB) (latitude longitude : ℚ)
    (originalTimestamp now : Nat) : Except StoreError Bool × DB :=
  if st.initialized then
    let newCircle := createRevealCircle latitude longitude
    let updatedRow : GeometryRow :=
      match st.shared with
      | some existing =>
          ⟨Geometry.union existing.geojson newCircle, existing.location_count + 1, now⟩
      | none => ⟨newCircle, 1, now⟩
    (.ok true,
      { st with
        shared := some updatedRow,
        history := st.history ++ [⟨latitude, longitude, originalTimestamp, Source.shared⟩] })
  else (.error .uninitializedStoreError, st)

/-- `getRevealedGeometry()`: the stored personal GeoJSON, or null. -/
def getRevealedGeometry (st : DB) : Except StoreError (Option Geometry) × DB :=
  if st.initialized then (.ok (st.revealed.map (·.geojson)), st)
  else (.error .uninitializedStoreError, st)

/-- `getSharedGeometry()`: the stored shared GeoJSON, or null. -/
def getSharedGeometry (st : DB) : Except StoreError (Option Geometry) × DB :=
  if st.initialized then (.ok (st.shared.map (·.geojson)), st)
  else (.error .uninitializedStoreError, st)

/-- `getSharedOnlyGeometry()`: `difference(shared, personal)`; null when there
is no shared geometry, `shared` verbatim when there is no personal geometry.
(turf may collapse an empty difference to null; symbolically the
`difference` node itself is returned.) -/
def getSharedOnlyGeometry (st : DB) : Except StoreError (Option Geometry) × DB :=
  if st.initialized then
    match st.shared.map (·.geojson), st.revealed.map (·.geojson) with
    | none, _ => (.ok none, st)
    | some sg, none => (.ok (some sg), st)
    | some sg, some pg => (.ok (some (Geometry.difference sg pg)), st)
  else (.error .uninitializedStoreError, st)

/-- `getAllRevealedGeometry()`: `union(personal, shared)` with the null cases
passed through verbatim. -/
def getAllRevealedGeometry (st : DB) : Except StoreError (Option Geometry) × DB :=
  if st.initialized then
    match st.revealed.map (·.geojson), st.shared.map (·.geojson) with
    | none, none => (.ok none, st)
    | none, some sg => (.ok (some sg), st)
    | some pg, none => (.ok (some pg), st)
    | some pg, some sg => (.ok (some (Geometry.union pg sg)), st)
  else (.error .uninitializedStoreError, st)

/-- `getRevealedStats()`: `location_count` / `last_updated` of the personal
row, defaulting to 0. -/
def getRevealedStats (st : DB) : Except StoreError RevealedAreaStats × DB :=
  if st.initialized then
    match st.revealed with
    | some row => (.ok ⟨row.location_count, row.last_updated⟩, st)
    | none => (.ok ⟨0, 0⟩, st)
  else (.error .uninitializedStoreError, st)

/-- `getSharedStats()`: as `getRevealedStats` but for the shared row. -/
def getSharedStats (st : DB) : Except StoreError RevealedAreaStats × DB :=
  if st.initialized then
    match st.shared with
    | some row => (.ok ⟨row.location_count, row.last_updated⟩, st)
    | none => (.ok ⟨0, 0⟩, st)
  else (.error .uninitializedStoreError, st)

/-- `getLocationCount()`: reads `location_count` from the personal row. -/
def getLocationCount (st : DB) : Except StoreError Nat × DB :=
  if st.initialized then
    match st.revealed with
    | some row => (.ok row.location_count, st)
    | none => (.ok 0, st)
  else (.error .uninitializedStoreError, st)

/-- `clearAllLocations()`: deletes all three tables. -/
def clearAllLocations (st : DB) : Except StoreError Unit × DB :=
  if st.initialized then
    (.ok (), { st with revealed := none, shared := none, history := [] })
  else (.error .uninitializedStoreError, st)

/-- The SQL existence probe used by `importSharedLocations`:
`SELECT id FROM location_history WHERE latitude = ? AND longitude = ? AND
timestamp = ?` (any source). -/
def historyHasTuple (hist : List HistoryRow) (lat lon : ℚ) (ts : Nat) : Bool :=
  hist.any fun r => decide (r.latitude = lat ∧ r.longitude = lon ∧ r.timestamp = ts)

/-- The loop body of `importSharedLocations`: skip an exact duplicate,
otherwise call `addSharedLocation` and count it. -/
def importLoop (now : Nat) : DB → List ExportableLocation → Nat →
    Except StoreError Nat × DB
  | st, [], acc => (.ok acc, st)
  | st, loc :: rest, acc =>
    if historyHasTuple st.history loc.lat loc.lon loc.ts then
      importLoop now st rest acc
    else
      match addSharedLocation st loc.lat loc.lon loc.ts now with
      | (.ok _, st2) => importLoop now st2 rest (acc + 1)
      | (.error e, st2) => (.error e, st2)

/-- `importSharedLocations(locations)`: dedup-and-add over the input list,
returning the number of newly imported points. -/
def importSharedLocations (st : DB) (locs : List ExportableLocation)
    (now : Nat) : Except StoreError Nat × DB :=
  if st.initialized then importLoop now st locs 0
  else (.error .uninitializedStoreError, st)

/-- Ascending insertion for the `ORDER BY timestamp ASC` read. -/
def insertByTs (r : HistoryRow) : List HistoryRow → List HistoryRow
  | [] => [r]
  | x :: xs => if r.timestamp < x.timestamp then r :: x :: xs else x :: insertByTs r xs

/-- Sort history rows by timestamp ascending (the relative order of equal
timestamps is unspecified by SQL; an insertion sort fixes one). -/
def sortByTimestamp : List HistoryRow → List HistoryRow
  | [] => []
  | x :: xs => insertByTs x (sortByTimestamp xs)

/-- `exportLocationHistory()`: all `source = 'self'` rows ordered by
timestamp ascending, projected to `{lat, lon, ts}`, tagged `version: 1`. -/
def exportLocationHistory (st : DB) : Except StoreError LocationExportData × DB :=
  if st.initialized then
    let rows := sortByTimestamp (st.history.filter fun r => decide (r.source = Source.self))
    (.ok ⟨1, rows.map fun r => ⟨r.latitude, r.longitude, r.timestamp⟩⟩, st)
  else (.error .uninitializedStoreError, st)

/-!
Chunked transport (Bluetooth module).  Payload strings are modelled as
`List Char`.  On the receiving side the successfully parsed
`CHUNK:<index>:<data>` reads are modelled as the ordered list of
`(index, data)` pairs observed before `END`.
-/

/-- `CHUNK_SIZE = 180` from the Bluetooth module. -/
def CHUNK_SIZE : Nat := 180

/-- `chunkString(str, size)`: slices of `size` characters taken left to
right.  The source loop does not terminate for `size = 0`; the function is
only ever invoked with `CHUNK_SIZE = 180`, and the `size = 0` case is given
the value `[]` purely to make the translation total. -/
def chunkString (s : List Char) (size : Nat) : List (List Char) :=
  if h1 : s = [] then []
  else if h2 : size = 0 then []
  else s.take size :: chunkString (s.drop size) size
termination_by s.length
decreasing_by
  simp only [List.length_drop]
  have hpos : 0 < s.length := List.length_pos.mpr h1
  omega

/-- One data-channel arrival: `chunks[chunkIndex] = chunkData` guarded by
`if (!chunks[chunkIndex])`.  A JavaScript assignment beyond the array's
length extends it with holes (`none`); an index holding a hole or an empty
string is falsy and may be (re)assigned, a non-empty entry is kept. -/
def setChunk (arr : List (Option String)) (i : Nat) (d : String) :
    List (Option String) :=
  let arr2 := arr ++ List.replicate (i + 1 - arr.length) none
  match arr2.get? i with
  | some (some cur) => if cur = "" then arr2.set i (some d) else arr2
  | _ => arr2.set i (some d)

/-- The receive loop's accumulation of chunk arrivals into the sparse
`chunks` array, starting from `[]`. -/
def receiveChunks (arrivals : List (Nat × String)) : List (Option String) :=
  arrivals.foldl (fun arr p => setChunk arr p.1 p.2) []

/-- `chunks.join('')`: a hole contributes the empty string. -/
def joinChunks (arr : List (Option String)) : String :=
  String.join (arr.map fun o => o.getD "")

/-- The reassembly tail of `receiveLocationData`: `null` when no chunk at
all was stored (`chunks.length === 0`), otherwise the join of the sparse
array.  Note that `totalChunks` (from `START:<n>`) is not consulted here. -/
def reassemble (arrivals : List (Nat × String)) : Option String :=
  let arr := receiveChunks arrivals
  if arr.isEmpty then none else some (joinChunks arr)

/-- The full result of `receiveLocationData`: reassemble, then
`JSON.parse`.  The platform JSON parser is abstracted as `decode`; the code
catches a parse exception and returns `null`, which `decode ... = none`
represents. -/
def receiveLocationDataModel (decode : String → Option LocationExportData)
    (arrivals : List (Nat × String)) : Option LocationExportData :=
  match reassemble arrivals with
  | none => none
  | some s => decode s

/-- The import step of `exchangeLocations`: nothing is applied unless the
received payload decoded and carries at least one location. -/
def applyReceived (st : DB) (receivedData : Option LocationExportData)
    (now : Nat) : Except StoreError Nat × DB :=
  match receivedData with
  | none => (.ok 0, st)
  | some d => if d.locations.isEmpty then (.ok 0, st)
    else importSharedLocations st d.locations now

/-!
The significance filter and its haversine distance, over `ℝ` (the source's
IEEE doubles are modelled as exact reals).
-/

/-- `toRadians(degrees)`. -/
noncomputable def toRadians (degrees : ℝ) : ℝ := degrees * (Real.pi / 180)

/-- JavaScript `Math.atan2(y, x)` on non-exceptional inputs. -/
noncomputable def atan2 (y x : ℝ) : ℝ :=
  if 0 < x then Real.arctan (y / x)
  else if x < 0 then
    (if 0 ≤ y then Real.arctan (y / x) + Real.pi else Real.arctan (y / x) - Real.pi)
  else
    (if 0 < y then Real.pi / 2 else if y < 0 then -(Real.pi / 2) else 0)

/-- The local `a` of `calculateDistanceMiles`:
`sin(dLat/2)*sin(dLat/2) + cos(lat1)*cos(lat2)*sin(dLon/2)*sin(dLon/2)`
with `dLat = toRadians(lat2 - lat1)`, `dLon = toRadians(lon2 - lon1)`. -/
noncomputable def haversineTerm (lat1 lon1 lat2 lon2 : ℝ) : ℝ :=
  Real.sin (toRadians (lat2 - lat1) / 2) * Real.sin (toRadians (lat2 - lat1) / 2) +
    Real.cos (toRadians lat1) * Real.cos (toRadians lat2) *
      Real.sin (toRadians (lon2 - lon1) / 2) * Real.sin (toRadians (lon2 - lon1) / 2)

/-- `calculateDistanceMiles(lat1, lon1, lat2, lon2)`: `R * c` with
`R = 3959` and `c = 2 * atan2(sqrt(a), sqrt(1 - a))`. -/
noncomputable def calculateDistanceMiles (lat1 lon1 lat2 lon2 : ℝ) : ℝ :=
  3959 * (2 * atan2 (Real.sqrt (haversineTerm lat1 lon1 lat2 lon2))
    (Real.sqrt (1 - haversineTerm lat1 lon1 lat2 lon2)))

/-- `isLocationSignificant(latitude, longitude, minDistanceMiles)` with the
module-level `lastRecordedLocation` cursor made an explicit argument:
accept when no cursor exists, otherwise when the haversine distance to the
cursor is at least the threshold. -/
def isLocationSignificant (lastRecordedLocation : Option (ℝ × ℝ))
    (latitude longitude : ℝ) (minDistanceMiles : ℝ) : Prop :=
  match lastRecordedLocation with
  | none => True
  | some last =>
      calculateDistanceMiles latitude longitude last.1 last.2 ≥ minDistanceMiles

/-- Follows the spec's words (§4.2): haversine great-circle distance with
Earth radius `R = 3959` miles, `a = sin²(Δlat/2) + cos(lat1)·cos(lat2)·
sin²(Δlon/2)` and `distance = 2·R·atan2(√a, √(1−a))`, all differences
converted from degrees to radians. -/
noncomputable def haversineSpecDistance (lat1 lon1 lat2 lon2 : ℝ) : ℝ :=
  2 * 3959 * atan2
    (Real.sqrt (Real.sin ((lat2 - lat1) * (Real.pi / 180) / 2) ^ 2 +
      Real.cos (lat1 * (Real.pi / 180)) * Real.cos (lat2 * (Real.pi / 180)) *
        Real.sin ((lon2 - lon1) * (Real.pi / 180) / 2) ^ 2))
    (Real.sqrt (1 - (Real.sin ((lat2 - lat1) * (Real.pi / 180) / 2) ^ 2 +
      Real.cos (lat1 * (Real.pi / 180)) * Real.cos (lat2 * (Real.pi / 180)) *
        Real.sin ((lon2 - lon1) * (Real.pi / 180) / 2) ^ 2)))

/-- Follows the spec's words (§4.5): for each incoming point check
exact-match `(lat, lon, timestamp)` existence in the history, skip
duplicates, otherwise add the point (appending its `source = shared` row),
and count the newly imported points.  Returns the count together with the
resulting history. -/
def specImport (hist : List HistoryRow) :
    List ExportableLocation → Nat × List HistoryRow
  | [] => (0, hist)
  | loc :: rest =>
    if historyHasTuple hist loc.lat loc.lon loc.ts then specImport hist rest
    else
      let r := specImport (hist ++ [⟨loc.lat, loc.lon, loc.ts, Source.shared⟩]) rest
      (r.1 + 1, r.2)

/-- An uninitialized store with empty tables (for concrete witnesses). -/
def uninitStore : DB := ⟨false, none, none, []⟩

/-- A freshly initialized, empty store (for concrete witnesses). -/
def emptyStore : DB := ⟨true, none, none, []⟩

/-!
Theorems.
-/

lemma chunkString_flatten_aux (size : Nat) (hs : 0 < size) :
    ∀ n (s : List Char), s.length ≤ n → (chunkString s size).flatten = s := by
  intro n
  induction n with
  | zero =>
    intro s hle
    have hnil : s = [] := List.eq_nil_of_length_eq_zero (Nat.le_zero.mp hle)
    subst hnil
    simp [chunkString]
  | succ n ih =>
    intro s hle
    by_cases h1 : s = []
    · subst h1; simp [chunkString]
    · rw [chunkString]
      simp only [dif_neg h1, dif_neg (Nat.pos_iff_ne_zero.mp hs), List.flatten_cons]
      have hlen : (s.drop size).length ≤ n := by
        have hp : 0 < s.length := List.length_pos.mpr h1
        simp only [List.length_drop]
        omega
      rw [ih (s.drop size) hlen, List.take_append_drop]

lemma chunkString_mem_length_aux (size : Nat) :
    ∀ n (s : List Char), s.length ≤ n → ∀ c ∈ chunkString s size, c.length ≤ size := by
  intro n
  induction n with
  | zero =>
    intro s hle c hc
    have hnil : s = [] := List.eq_nil_of_length_eq_zero (Nat.le_zero.mp hle)
    subst hnil
    simp [chunkString] at hc
  | succ n ih =>
    intro s hle c hc
    by_cases h1 : s = []
    · subst h1; simp [chunkString] at hc
    · by_cases h2 : size = 0
      · rw [chunkString] at hc
        simp [dif_neg h1, dif_pos h2] at hc
      · rw [chunkString] at hc
        simp only [dif_neg h1, dif_neg h2, List.mem_cons] at hc
        rcases hc with hc | hc
        · subst hc
          rw [List.length_take]
          exact min_le_left _ _
        · have hlen : (s.drop size).length ≤ n := by
            have hp : 0 < s.length := List.length_pos.mpr h1
            have hp2 : 0 < size := Nat.pos_of_ne_zero h2
            simp only [List.length_drop]
            omega
          exact ih (s.drop size) hlen c hc

/-- Claim C7: for every payload, the sender's splitter at chunk size 180
produces chunks of length at most 180, and flattening the chunk list in
index order reproduces the payload exactly. -/
theorem chunkString_roundtrip (s : List Char) :
    (chunkString s CHUNK_SIZE).flatten = s ∧
      ∀ c ∈ chunkString s CHUNK_SIZE, c.length ≤ CHUNK_SIZE := by
  constructor
  · exact chunkString_flatten_aux CHUNK_SIZE (by norm_num [CHUNK_SIZE]) s.length s le_rfl
  · exact chunkString_mem_length_aux CHUNK_SIZE s.length s le_rfl

/-- Claim C2 (code evaluation at the failing input): with `totalChunks = 2`
announced and only the chunk of index 1 (`"B"`) received before `END`, the
receiver's reassembly does not fail: it silently skips the missing index 0
and hands `"B"` to the JSON parser.  `totalChunks` is never consulted by
the reassembly code. -/
theorem reassemble_missing_index_not_failure :
    reassemble [(1, "B")] = some "B" ∧ reassemble [(1, "B")] ≠ none := by
  constructor
  · rfl
  · decide

/-- Claim C8: every store operation invoked before initialization fails with
the uninitialized-store error and leaves the state untouched. -/
theorem storeOps_uninitialized (st : DB) (h : st.initialized = false)
    (lat lon : ℚ) (ots now : Nat) (locs : List ExportableLocation) :
    addVisitedLocation st lat lon now = (.error .uninitializedStoreError, st) ∧
    addSharedLocation st lat lon ots now = (.error .uninitializedStoreError, st) ∧
    getRevealedGeometry st = (.error .uninitializedStoreError, st) ∧
    getSharedGeometry st = (.error .uninitializedStoreError, st) ∧
    getSharedOnlyGeometry st = (.error .uninitializedStoreError, st) ∧
    getAllRevealedGeometry st = (.error .uninitializedStoreError, st) ∧
    importSharedLocations st locs now = (.error .uninitializedStoreError, st) ∧
    exportLocationHistory st = (.error .uninitializedStoreError, st) ∧
    clearAllLocations st = (.error .uninitializedStoreError, st) ∧
    getRevealedStats st = (.error .uninitializedStoreError, st) ∧
    getSharedStats st = (.error .uninitializedStoreError, st) ∧
    getLocationCount st = (.error .uninitializedStoreError, st) := by
  refine ⟨?_, ?_, ?_, ?_, ?_, ?_, ?_, ?_, ?_, ?_, ?_, ?_⟩ <;>
    simp [addVisitedLocation, addSharedLocation, getRevealedGeometry,
      getSharedGeometry, getSharedOnlyGeometry, getAllRevealedGeometry,
      importSharedLocations, exportLocationHistory, clearAllLocations,
      getRevealedStats, getSharedStats, getLocationCount, h]

/-- Witness for C8 on a concrete uninitialized store. -/
theorem storeOps_uninitialized_witness :
    addVisitedLocation uninitStore 1 2 4 = (.error .uninitializedStoreError, uninitStore) ∧
    addSharedLocation uninitStore 1 2 3 4 = (.error .uninitializedStoreError, uninitStore) ∧
    getRevealedGeometry uninitStore = (.error .uninitializedStoreError, uninitStore) ∧
    getSharedGeometry uninitStore = (.error .uninitializedStoreError, uninitStore) ∧
    getSharedOnlyGeometry uninitStore = (.error .uninitializedStoreError, uninitStore) ∧
    getAllRevealedGeometry uninitStore = (.error .uninitializedStoreError, uninitStore) ∧
    importSharedLocations uninitStore [⟨1, 2, 3⟩] 4 = (.error .uninitializedStoreError, uninitStore) ∧
    exportLocationHistory uninitStore = (.error .uninitializedStoreError, uninitStore) ∧
    clearAllLocations uninitStore = (.error .uninitializedStoreError, uninitStore) ∧
    getRevealedStats uninitStore = (.error .uninitializedStoreError, uninitStore) ∧
    getSharedStats uninitStore = (.error .uninitializedStoreError, uninitStore) ∧
    getLocationCount uninitStore = (.error .uninitializedStoreError, uninitStore) :=
  storeOps_uninitialized uninitStore rfl 1 2 3 4 [⟨1, 2, 3⟩]

/-- Claim C1: on an initialized store, `addVisitedLocation` returns `true`;
the personal row becomes the bare disc with count 1 when absent, else the
union of the prior geometry with the new disc and count incremented by one;
`last_updated` is stamped; exactly one `source = self` history row is
appended; the shared slot is untouched. -/
theorem addVisitedLocation_spec (st : DB) (h : st.initialized = true)
    (lat lon : ℚ) (now : Nat) :
    (addVisitedLocation st lat lon now).1 = .ok true ∧
    (st.revealed = none →
      (addVisitedLocation st lat lon now).2.revealed =
        some ⟨createRevealCircle lat lon, 1, now⟩) ∧
    (∀ row, st.revealed = some row →
      (addVisitedLocation st lat lon now).2.revealed =
        some ⟨Geometry.union row.geojson (createRevealCircle lat lon),
          row.location_count + 1, now⟩) ∧
    (addVisitedLocation st lat lon now).2.history =
      st.history ++ [⟨lat, lon, now, Source.self⟩] ∧
    (addVisitedLocation st lat lon now).2.shared = st.shared := by
  refine ⟨?_, ?_, ?_, ?_, ?_⟩
  · simp [addVisitedLocation, h]
  · intro h0; simp [addVisitedLocation, h, h0]
  · intro row h0; simp [addVisitedLocation, h, h0]
  · simp [addVisitedLocation, h]
  · simp [addVisitedLocation, h]

/-- Witness for C1: bootstrap on the empty store and union on a one-disc
store, at concrete coordinates. -/
theorem addVisitedLocation_spec_witness :
    (addVisitedLocation emptyStore 1 2 5).1 = .ok true ∧
    (addVisitedLocation emptyStore 1 2 5).2.revealed =
      some ⟨createRevealCircle 1 2, 1, 5⟩ ∧
    (addVisitedLocation ⟨true, some ⟨createRevealCircle 0 0, 1, 0⟩, none, []⟩ 1 2 5).2.revealed =
      some ⟨Geometry.union (createRevealCircle 0 0) (createRevealCircle 1 2), 2, 5⟩ ∧
    (addVisitedLocation emptyStore 1 2 5).2.history = [⟨1, 2, 5, Source.self⟩] := by
  refine ⟨(addVisitedLocation_spec emptyStore rfl 1 2 5).1,
    (addVisitedLocation_spec emptyStore rfl 1 2 5).2.1 rfl,
    (addVisitedLocation_spec ⟨true, some ⟨createRevealCircle 0 0, 1, 0⟩, none, []⟩ rfl 1 2 5).2.2.1
      ⟨createRevealCircle 0 0, 1, 0⟩ rfl, ?_⟩
  simpa [emptyStore] using (addVisitedLocation_spec emptyStore rfl 1 2 5).2.2.2.1

/-- Claim C9: on an initialized store, `addSharedLocation` appends a history
row with source `shared` carrying the peer's original timestamp (not the
local receipt time), mutates only the shared slot, and leaves the personal
slot alone. -/
theorem addSharedLocation_spec (st : DB) (h : st.initialized = true)
    (lat lon : ℚ) (ots now : Nat) :
    (addSharedLocation st lat lon ots now).1 = .ok true ∧
    (addSharedLocation st lat lon ots now).2.history =
      st.history ++ [⟨lat, lon, ots, Source.shared⟩] ∧
    (addSharedLocation st lat lon ots now).2.revealed = st.revealed ∧
    (st.shared = none →
      (addSharedLocation st lat lon ots now).2.shared =
        some ⟨createRevealCircle lat lon, 1, now⟩) ∧
    (∀ row, st.shared = some row →
      (addSharedLocation st lat lon ots now).2.shared =
        some ⟨Geometry.union row.geojson (createRevealCircle lat lon),
          row.location_count + 1, now⟩) := by
  refine ⟨?_, ?_, ?_, ?_, ?_⟩
  · simp [addSharedLocation, h]
  · simp [addSharedLocation, h]
  · simp [addSharedLocation, h]
  · intro h0; simp [addSharedLocation, h, h0]
  · intro row h0; simp [addSharedLocation, h, h0]

/-- Witness for C9 at a concrete input where the original timestamp (7)
differs from the local receipt time (9). -/
theorem addSharedLocation_spec_witness :
    (addSharedLocation emptyStore 1 2 7 9).1 = .ok true ∧
    (addSharedLocation emptyStore 1 2 7 9).2.history = [⟨1, 2, 7, Source.shared⟩] ∧
    (addSharedLocation emptyStore 1 2 7 9).2.revealed = none ∧
    (addSharedLocation emptyStore 1 2 7 9).2.shared =
      some ⟨createRevealCircle 1 2, 1, 9⟩ := by
  refine ⟨(addSharedLocation_spec emptyStore rfl 1 2 7 9).1, ?_, ?_,
    (addSharedLocation_spec emptyStore rfl 1 2 7 9).2.2.2.1 rfl⟩
  · simpa [emptyStore] using (addSharedLocation_spec emptyStore rfl 1 2 7 9).2.1
  · simpa [emptyStore] using (addSharedLocation_spec emptyStore rfl 1 2 7 9).2.2.1

lemma addSharedLocation_ok (st : DB) (h : st.initialized = true)
    (lat lon : ℚ) (ots now : Nat) :
    ∃ st2 : DB, addSharedLocation st lat lon ots now = (.ok true, st2) ∧
      st2.initialized = true ∧ st2.revealed = st.revealed ∧
      st2.history = st.history ++ [⟨lat, lon, ots, Source.shared⟩] := by
  refine ⟨(addSharedLocation st lat lon ots now).2, ?_, ?_, ?_, ?_⟩ <;>
    cases hs : st.shared <;> simp [addSharedLocation, h, hs]

lemma importLoop_preserves (now : Nat) :
    ∀ (locs : List ExportableLocation) (st : DB) (acc : Nat),
      (importLoop now st locs acc).2.revealed = st.revealed ∧
      (importLoop now st locs acc).2.initialized = st.initialized := by
  intro locs
  induction locs with
  | nil => intro st acc; simp [importLoop]
  | cons loc rest ih =>
    intro st acc
    by_cases hdup : historyHasTuple st.history loc.lat loc.lon loc.ts
    · simpa [importLoop, hdup] using ih st acc
    · cases hinit : st.initialized with
      | false => simp [importLoop, hdup, addSharedLocation, hinit]
      | true =>
        obtain ⟨st1, he1, hi1, hr1, hh1⟩ := addSharedLocation_ok st hinit loc.lat loc.lon loc.ts now
        obtain ⟨h1, h2⟩ := ih st1 (acc + 1)
        refine ⟨?_, ?_⟩ <;> simp [importLoop, hdup, he1, h1, h2, hr1, hi1, hinit]

lemma importSharedLocations_preserves (st : DB) (locs : List ExportableLocation)
    (now : Nat) :
    (importSharedLocations st locs now).2.revealed = st.revealed ∧
    (importSharedLocations st locs now).2.initialized = st.initialized := by
  cases h : st.initialized with
  | false => simp [importSharedLocations, h]
  | true => simpa [importSharedLocations, h] using importLoop_preserves now locs st 0

/-- Claim C10 (frame property): neither `addSharedLocation` nor
`importSharedLocations` ever touches the personal `revealed_geometry` row
(geometry, point count and last-updated metadata alike), and the value
`getRevealedGeometry` reports is unchanged by an import. -/
theorem sharedWrites_preserve_personal (st : DB) (lat lon : ℚ)
    (ots now : Nat) (locs : List ExportableLocation) :
    (addSharedLocation st lat lon ots now).2.revealed = st.revealed ∧
    (importSharedLocations st locs now).2.revealed = st.revealed ∧
    (getRevealedGeometry (importSharedLocations st locs now).2).1 =
      (getRevealedGeometry st).1 := by
  obtain ⟨himp, hinit⟩ := importSharedLocations_preserves st locs now
  refine ⟨?_, himp, ?_⟩
  · cases h : st.initialized <;> simp [addSharedLocation, h]
  · cases h : st.initialized with
    | false => simp [getRevealedGeometry, h, hinit.trans h, himp]
    | true => simp [getRevealedGeometry, h, hinit.trans h, himp]

lemma importLoop_spec (now : Nat) :
    ∀ (locs : List ExportableLocation) (st : DB) (acc : Nat),
      st.initialized = true →
      ∃ st2 : DB,
        importLoop now st locs acc = (.ok (acc + (specImport st.history locs).1), st2) ∧
        st2.initialized = true ∧
        st2.history = (specImport st.history locs).2 := by
  intro locs
  induction locs with
  | nil =>
    intro st acc h
    exact ⟨st, by simp [importLoop, specImport], h, by simp [specImport]⟩
  | cons loc rest ih =>
    intro st acc h
    by_cases hdup : historyHasTuple st.history loc.lat loc.lon loc.ts
    · obtain ⟨st2, he, hi, hh⟩ := ih st acc h
      exact ⟨st2, by simp [importLoop, hdup, specImport, he], hi,
        by simp [specImport, hdup, hh]⟩
    · obtain ⟨st1, he1, hi1, hr1, hh1⟩ := addSharedLocation_ok st h loc.lat loc.lon loc.ts now
      obtain ⟨st2, he2, hi2, hh2⟩ := ih st1 (acc + 1) hi1
      refine ⟨st2, ?_, hi2, ?_⟩
      · have harith : acc + 1 + (specImport st1.history rest).1 =
            acc + ((specImport st1.history rest).1 + 1) := by omega
        simp only [importLoop, hdup, Bool.false_eq_true, if_false, he1]
        rw [he2, harith]
        simp [specImport, hdup, hh1]
      · simp only [specImport, hdup, Bool.false_eq_true, if_false]
        rw [hh2, hh1]

lemma historyHasTuple_append (hist more : List HistoryRow) (lat lon : ℚ) (ts : Nat)
    (h : historyHasTuple hist lat lon ts = true) :
    historyHasTuple (hist ++ more) lat lon ts = true := by
  simp only [historyHasTuple, List.any_append, Bool.or_eq_true]
  exact Or.inl h

lemma specImport_hist_mono :
    ∀ (locs : List ExportableLocation) (hist : List HistoryRow),
      ∃ more, (specImport hist locs).2 = hist ++ more := by
  intro locs
  induction locs with
  | nil => intro hist; exact ⟨[], by simp [specImport]⟩
  | cons loc rest ih =>
    intro hist
    by_cases hdup : historyHasTuple hist loc.lat loc.lon loc.ts
    · simpa [specImport, hdup] using ih hist
    · obtain ⟨more, hm⟩ := ih (hist ++ [⟨loc.lat, loc.lon, loc.ts, Source.shared⟩])
      refine ⟨⟨loc.lat, loc.lon, loc.ts, Source.shared⟩ :: more, ?_⟩
      simp only [specImport, hdup, Bool.false_eq_true, if_false]
      rw [hm, List.append_assoc]
      rfl

lemma specImport_all_present :
    ∀ (locs : List ExportableLocation) (hist : List HistoryRow),
      ∀ loc ∈ locs,
        historyHasTuple (specImport hist locs).2 loc.lat loc.lon loc.ts = true := by
  intro locs
  induction locs with
  | nil => intro hist loc hmem; simp at hmem
  | cons l rest ih =>
    intro hist loc hmem
    rcases List.mem_cons.mp hmem with rfl | hmem2
    · by_cases hdup : historyHasTuple hist loc.lat loc.lon loc.ts
      · obtain ⟨more, hm⟩ := specImport_hist_mono rest hist
        simp only [specImport, hdup, if_true]
        rw [hm]
        exact historyHasTuple_append hist more _ _ _ hdup
      · obtain ⟨more, hm⟩ :=
          specImport_hist_mono rest (hist ++ [⟨loc.lat, loc.lon, loc.ts, Source.shared⟩])
        have hrow : historyHasTuple (hist ++ [⟨loc.lat, loc.lon, loc.ts, Source.shared⟩])
            loc.lat loc.lon loc.ts = true := by
          simp [historyHasTuple, List.any_append]
        simp only [specImport, hdup, Bool.false_eq_true, if_false]
        rw [hm]
        exact historyHasTuple_append _ more _ _ _ hrow
    · by_cases hdup : historyHasTuple hist l.lat l.lon l.ts
      · simpa [specImport, hdup] using
          ih hist loc hmem2
      · simpa [specImport, hdup] using
          ih (hist ++ [⟨l.lat, l.lon, l.ts, Source.shared⟩]) loc hmem2

lemma importLoop_all_present (now : Nat) :
    ∀ (locs : List ExportableLocation) (st : DB) (acc : Nat),
      (∀ loc ∈ locs, historyHasTuple st.history loc.lat loc.lon loc.ts = true) →
      importLoop now st locs acc = (.ok acc, st) := by
  intro locs
  induction locs with
  | nil => intro st acc hall; simp [importLoop]
  | cons loc rest ih =>
    intro st acc hall
    have hdup := hall loc (List.mem_cons_self loc rest)
    simp only [importLoop, hdup, if_true]
    exact ih st acc fun l hl => hall l (List.mem_cons_of_mem loc hl)

/-- Claim C4: on an initialized store, `importSharedLocations` behaves as
the spec's dedup-and-add loop (`specImport`): skip each point whose exact
`(lat, lon, ts)` tuple is already in the history, add the rest, return the
count of newly imported points with the history extended accordingly; and
re-importing the same list into the resulting store returns count 0 and
changes nothing. -/
theorem importSharedLocations_spec (st : DB) (h : st.initialized = true)
    (locs : List ExportableLocation) (now now2 : Nat) :
    ∃ st2 : DB,
      importSharedLocations st locs now = (.ok (specImport st.history locs).1, st2) ∧
      st2.history = (specImport st.history locs).2 ∧
      importSharedLocations st2 locs now2 = (.ok 0, st2) := by
  obtain ⟨st2, he, hi, hh⟩ := importLoop_spec now locs st 0 h
  refine ⟨st2, ?_, hh, ?_⟩
  · simp only [importSharedLocations, h, if_true]
    rw [he]
    simp
  · simp only [importSharedLocations, hi, if_true]
    refine importLoop_all_present now2 locs st2 0 fun loc hl => ?_
    rw [hh]
    exact specImport_all_present locs st.history loc hl

/-- Witness for C4: importing a list holding the same point twice into the
empty store imports it once; re-importing the same list yields count 0. -/
theorem importSharedLocations_spec_witness :
    ∃ st2 : DB,
      importSharedLocations emptyStore [⟨1, 2, 3⟩, ⟨1, 2, 3⟩] 5 = (.ok 1, st2) ∧
      importSharedLocations st2 [⟨1, 2, 3⟩, ⟨1, 2, 3⟩] 9 = (.ok 0, st2) := by
  obtain ⟨st2, h1, h2, h3⟩ :=
    importSharedLocations_spec emptyStore rfl [⟨1, 2, 3⟩, ⟨1, 2, 3⟩] 5 9
  have hc : (specImport emptyStore.history [⟨1, 2, 3⟩, ⟨1, 2, 3⟩]).1 = 1 := by decide
  rw [hc] at h1
  exact ⟨st2, h1, h3⟩

/-- Claim C3: when the reassembled payload's top-level structure is
unparsable (`JSON.parse` throws; the code catches the malformed-data error
and yields `null`), the receive step reports no data and the exchange
applies zero points, leaving the store untouched; by contrast a
well-formed import never fails — per-point duplicates are skipped, not
errors. -/
theorem malformedImport_spec (decode : String → Option LocationExportData)
    (arrivals : List (Nat × String)) (s : String) (st : DB)
    (now : Nat) (locs : List ExportableLocation)
    (hre : reassemble arrivals = some s) (hbad : decode s = none) :
    receiveLocationDataModel decode arrivals = none ∧
    applyReceived st (receiveLocationDataModel decode arrivals) now = (.ok 0, st) ∧
    (st.initialized = true →
      ∃ k st2, importSharedLocations st locs now = (.ok k, st2)) := by
  have hrecv : receiveLocationDataModel decode arrivals = none := by
    simp [receiveLocationDataModel, hre, hbad]
  refine ⟨hrecv, by simp [applyReceived, hrecv], fun h => ?_⟩
  obtain ⟨st2, he, hi, hh⟩ := importLoop_spec now locs st 0 h
  exact ⟨_, st2, by simp only [importSharedLocations, h, if_true]; exact he⟩

/-- Witness for C3: a payload that reassembles but does not decode applies
nothing to a concrete store, while a well-formed import on the same store
succeeds. -/
theorem malformedImport_spec_witness :
    receiveLocationDataModel (fun _ => none) [(0, "x")] = none ∧
    applyReceived emptyStore (receiveLocationDataModel (fun _ => none) [(0, "x")]) 5 =
      (.ok 0, emptyStore) ∧
    (∃ k st2, importSharedLocations emptyStore [⟨1, 2, 3⟩] 5 = (.ok k, st2)) := by
  have h := malformedImport_spec (fun _ => none) [(0, "x")] "x" emptyStore 5
    [⟨1, 2, 3⟩] rfl rfl
  exact ⟨h.1, h.2.1, h.2.2 rfl⟩

lemma haversineTerm_symm (lat1 lon1 lat2 lon2 : ℝ) :
    haversineTerm lat1 lon1 lat2 lon2 = haversineTerm lat2 lon2 lat1 lon1 := by
  have hsin : ∀ u v : ℝ,
      Real.sin (toRadians (u - v) / 2) = -Real.sin (toRadians (v - u) / 2) := by
    intro u v
    have harg : toRadians (u - v) / 2 = -(toRadians (v - u) / 2) := by
      simp only [toRadians]; ring
    rw [harg, Real.sin_neg]
  simp only [haversineTerm]
  rw [hsin lat2 lat1, hsin lon2 lon1]
  ring

lemma calculateDistanceMiles_symm (lat1 lon1 lat2 lon2 : ℝ) :
    calculateDistanceMiles lat1 lon1 lat2 lon2 =
      calculateDistanceMiles lat2 lon2 lat1 lon1 := by
  unfold calculateDistanceMiles
  rw [haversineTerm_symm]

lemma calculateDistanceMiles_self (lat lon : ℝ) :
    calculateDistanceMiles lat lon lat lon = 0 := by
  have hterm : haversineTerm lat lon lat lon = 0 := by
    simp [haversineTerm, toRadians]
  have hatan : atan2 0 1 = 0 := by
    simp only [atan2]
    rw [if_pos one_pos]
    simp [Real.arctan_zero]
  simp [calculateDistanceMiles, hterm, hatan]

/-- Claim C5: the last-point significance filter accepts a candidate exactly
when there is no last-recorded point or the haversine distance to it is at
least the threshold; two points strictly closer than the threshold are both
rejected when each is evaluated against the other as the last-recorded
point (in particular never both accepted), and a candidate at distance at
least the threshold from the last point is always accepted. -/
theorem isLocationSignificant_lastPoint_spec :
    (∀ lat lon m : ℝ, isLocationSignificant none lat lon m) ∧
    (∀ la lo lat lon m : ℝ,
      isLocationSignificant (some (la, lo)) lat lon m ↔
        calculateDistanceMiles lat lon la lo ≥ m) ∧
    (∀ la lo lat lon m : ℝ,
      calculateDistanceMiles lat lon la lo < m →
        ¬ isLocationSignificant (some (la, lo)) lat lon m ∧
        ¬ isLocationSignificant (some (lat, lon)) la lo m) ∧
    (∀ la lo lat lon m : ℝ,
      calculateDistanceMiles lat lon la lo ≥ m →
        isLocationSignificant (some (la, lo)) lat lon m) := by
  refine ⟨fun lat lon m => trivial, fun la lo lat lon m => Iff.rfl, ?_, ?_⟩
  · intro la lo lat lon m hlt
    constructor
    · intro hacc
      exact absurd hacc (not_le.mpr hlt)
    · intro hacc
      have hsym : calculateDistanceMiles la lo lat lon < m := by
        rw [calculateDistanceMiles_symm]
        exact hlt
      exact absurd hacc (not_le.mpr hsym)
  · intro la lo lat lon m hge
    exact hge

/-- Witness for C5: the origin evaluated against itself at threshold 1 is
rejected in both directions (the self-distance evaluates to 0 < 1). -/
theorem isLocationSignificant_lastPoint_spec_witness :
    calculateDistanceMiles 0 0 0 0 < 1 ∧
    ¬ isLocationSignificant (some (0, 0)) 0 0 1 := by
  have hd : calculateDistanceMiles 0 0 0 0 < 1 := by
    rw [calculateDistanceMiles_self]
    norm_num
  exact ⟨hd, (isLocationSignificant_lastPoint_spec.2.2.1 0 0 0 0 1 hd).1⟩

lemma calculateDistanceMiles_eq_spec (lat1 lon1 lat2 lon2 : ℝ) :
    calculateDistanceMiles lat1 lon1 lat2 lon2 =
      haversineSpecDistance lat1 lon1 lat2 lon2 := by
  have ha : haversineTerm lat1 lon1 lat2 lon2 =
      Real.sin ((lat2 - lat1) * (Real.pi / 180) / 2) ^ 2 +
        Real.cos (lat1 * (Real.pi / 180)) * Real.cos (lat2 * (Real.pi / 180)) *
          Real.sin ((lon2 - lon1) * (Real.pi / 180) / 2) ^ 2 := by
    simp only [haversineTerm, toRadians]
    ring
  simp only [calculateDistanceMiles, haversineSpecDistance, ha]
  ring

/-- Claim C6: the distance the significance filter uses is exactly the
spec's haversine great-circle distance with Earth radius 3959 miles
(`a = sin²(Δlat/2) + cos(lat1)·cos(lat2)·sin²(Δlon/2)`,
`distance = 2·R·atan2(√a, √(1−a))`, degree differences converted to
radians): the source's formula and the spec's formula agree on every pair
of points, and the filter's acceptance test is that distance against the
threshold. -/
theorem calculateDistanceMiles_matches_haversineSpec
    (lat1 lon1 lat2 lon2 la lo lat lon m : ℝ) :
    calculateDistanceMiles lat1 lon1 lat2 lon2 =
      haversineSpecDistance lat1 lon1 lat2 lon2 ∧
    (isLocationSignificant (some (la, lo)) lat lon m ↔
      haversineSpecDistance lat lon la lo ≥ m) := by
  constructor
  · exact calculateDistanceMiles_eq_spec lat1 lon1 lat2 lon2
  · rw [isLocationSignificant, calculateDistanceMiles_eq_spec]
